import Mathlib

/-!
Verification of the apartment-dashboard market-price and deal-score engine.

Shallow embedding of `scripts/calc_market_price.py` and
`scripts/calc_deal_score.py`.  Python `Optional` values become `Option`,
Python `float` arithmetic is modelled over `Rat`, Python `int()` truncation
toward zero is `pyInt`, and exceptions are modelled with `Except String`.
The SQLite stores become explicit lists of records.
-/

namespace AptDash

/-- A row of the `transactions` table (comparable sale). -/
structure Transaction where
  ward_name : String
  station_name : Option String
  building_year : Option Int
  area : Option Rat
  unit_price : Option Int
  deriving Repr, DecidableEq

/-- Python truthiness of an `Optional[str]`: `None` and `""` are falsy. -/
def pyTruthyStr : Option String → Bool
  | none => false
  | some s => !s.isEmpty

/-- Python truthiness test `not x` for an `Optional[int]`: `None` and `0` are falsy. -/
def pyFalsyInt : Option Int → Bool
  | none => true
  | some n => n == 0

/-- Python truthiness test `not x` for an `Optional[float]`: `None` and `0.0` are falsy. -/
def pyFalsyRat : Option Rat → Bool
  | none => true
  | some q => q == 0

/-- Python `int()` on a rational: truncation toward zero. -/
def pyInt (q : Rat) : Int :=
  if q < 0 then -⌊-q⌋ else ⌊q⌋

/-- Model of Python `statistics.median` on a list of integers (as a rational; the Python
function raises on `[]`, callers guard, we return a junk value `0` there). -/
def pyMedian (l : List Int) : Rat :=
  let s := List.insertionSort (· ≤ ·) l
  let n := s.length
  if n % 2 = 1 then ((s.getD (n / 2) 0 : Int) : Rat)
  else (((s.getD (n / 2 - 1) 0 + s.getD (n / 2) 0 : Int) : Rat)) / 2

/-- Embedding of `get_age_bracket` from `calc_market_price.py` (the current year,
`datetime.now().year` in the source, is an explicit parameter). -/
def get_age_bracket (currentYear : Int) (building_year : Option Int) : Option String :=
  match building_year with
  | none => none
  | some y =>
    let age := currentYear - y
    if age ≤ 10 then some "0-10"
    else if age ≤ 20 then some "11-20"
    else if age ≤ 30 then some "21-30"
    else some "31+"

/-- Embedding of `get_area_bracket` from `calc_market_price.py`. -/
def get_area_bracket (area : Option Rat) : Option String :=
  match area with
  | none => none
  | some a =>
    if a < 40 then none
    else if a ≤ 50 then some "40-50"
    else if a ≤ 60 then some "51-60"
    else if a ≤ 70 then some "61-70"
    else if a ≤ 80 then some "71-80"
    else some "81+"

/-- Embedding of `get_age_range` from `calc_market_price.py`. -/
def get_age_range (currentYear : Int) (age_bracket : String) : Int × Int :=
  let p : Int × Int :=
    if age_bracket == "0-10" then (0, 10)
    else if age_bracket == "11-20" then (11, 20)
    else if age_bracket == "21-30" then (21, 30)
    else (31, 100)
  (currentYear - p.2, currentYear - p.1)

/-- Embedding of `get_area_range` from `calc_market_price.py`. -/
def get_area_range (area_bracket : String) : Rat × Rat :=
  if area_bracket == "40-50" then (40, 50)
  else if area_bracket == "51-60" then (51, 60)
  else if area_bracket == "61-70" then (61, 70)
  else if area_bracket == "71-80" then (71, 80)
  else (81, 999)

/-- Does a transaction row satisfy `ward_name = ? AND building_year BETWEEN ? AND ?
AND unit_price IS NOT NULL` (SQL `NULL` never satisfies `BETWEEN`)? -/
def matchesBase (t : Transaction) (ward : String) (minYear maxYear : Int) : Bool :=
  t.ward_name == ward &&
  (match t.building_year with
   | some y => decide (minYear ≤ y) && decide (y ≤ maxYear)
   | none => false) &&
  t.unit_price.isSome

/-- SQL `station_name = ?` row filter (a `NULL` row value never matches). -/
def matchesStation (t : Transaction) (station : Option String) : Bool :=
  match t.station_name, station with
  | some s, some s' => s == s'
  | _, _ => false

/-- SQL `area BETWEEN ? AND ?` row filter (`NULL` on either side never matches). -/
def matchesArea (t : Transaction) (minArea maxArea : Option Rat) : Bool :=
  match t.area, minArea, maxArea with
  | some a, some lo, some hi => decide (lo ≤ a) && decide (a ≤ hi)
  | _, _, _ => false

/-- Embedding of `query_unit_prices` from `calc_market_price.py`: the four SQL branches,
selected by the truthiness of `station_name` and presence of `min_area`. -/
def query_unit_prices (db : List Transaction) (ward : String) (station : Option String)
    (minYear maxYear : Int) (minArea maxArea : Option Rat) : List Int :=
  if pyTruthyStr station && minArea.isSome then
    (db.filter (fun t => matchesBase t ward minYear maxYear && matchesStation t station &&
      matchesArea t minArea maxArea)).filterMap (·.unit_price)
  else if pyTruthyStr station then
    (db.filter (fun t => matchesBase t ward minYear maxYear &&
      matchesStation t station)).filterMap (·.unit_price)
  else if minArea.isSome then
    (db.filter (fun t => matchesBase t ward minYear maxYear &&
      matchesArea t minArea maxArea)).filterMap (·.unit_price)
  else
    (db.filter (fun t => matchesBase t ward minYear maxYear)).filterMap (·.unit_price)

/-- The price expression `int(median * area)` of `calc_market_price.py`, where
`median = int(statistics.median(prices))`; with `area = None` the Python
multiplication raises `TypeError`. -/
def tierPriceExpr (prices : List Int) (area : Option Rat) : Except String Int :=
  match area with
  | none => Except.error "TypeError"
  | some a => Except.ok (pyInt (((pyInt (pyMedian prices) : Int) : Rat) * a))

/-- Embedding of `calc_market_price_with_fallback` from `calc_market_price.py`.
Returns `(market price or None, sample count, fallback level)`;
`Except.error` models a raised Python exception. -/
def calc_market_price_with_fallback (db : List Transaction) (currentYear : Int)
    (ward_name : String) (station_name : Option String)
    (building_year : Option Int) (area : Option Rat) :
    Except String (Option Int × Nat × Nat) :=
  match get_age_bracket currentYear building_year with
  | none => Except.ok (none, 0, 5)
  | some age_bracket =>
    let yr := get_age_range currentYear age_bracket
    let ar : Option Rat × Option Rat :=
      match get_area_bracket area with
      | some arb => (some (get_area_range arb).1, some (get_area_range arb).2)
      | none => (none, none)
    let prices1 := query_unit_prices db ward_name station_name yr.1 yr.2 ar.1 ar.2
    if pyTruthyStr station_name && (get_area_bracket area).isSome &&
        decide (20 ≤ prices1.length) then
      (tierPriceExpr prices1 area).map (fun p => (some p, prices1.length, 1))
    else
      let prices2 := query_unit_prices db ward_name station_name yr.1 yr.2 none none
      if pyTruthyStr station_name && decide (15 ≤ prices2.length) then
        (tierPriceExpr prices2 area).map (fun p => (some p, prices2.length, 2))
      else
        let prices3 := query_unit_prices db ward_name none yr.1 yr.2 ar.1 ar.2
        if (get_area_bracket area).isSome && decide (10 ≤ prices3.length) then
          (tierPriceExpr prices3 area).map (fun p => (some p, prices3.length, 3))
        else
          let prices4 := query_unit_prices db ward_name none yr.1 yr.2 none none
          if decide (5 ≤ prices4.length) then
            (tierPriceExpr prices4 area).map (fun p => (some p, prices4.length, 4))
          else
            Except.ok (none, prices4.length, 5)

/-- Embedding of `int(statistics.median(prices))` guarded by emptiness: on `[]` the Python
call raises `StatisticsError`. -/
def safeMedianInt (prices : List Int) : Except String Int :=
  if prices.isEmpty then Except.error "StatisticsError"
  else Except.ok (pyInt (pyMedian prices))

/-- The station-level comparable group queried by `calc_median_unit_price`. -/
def medianStationPrices (db : List Transaction) (currentYear : Int) (ward : String)
    (station : Option String) (age_bracket area_bracket : String) : List Int :=
  query_unit_prices db ward station (get_age_range currentYear age_bracket).1
    (get_age_range currentYear age_bracket).2
    (some (get_area_range area_bracket).1) (some (get_area_range area_bracket).2)

/-- The ward-level comparable group queried by `calc_median_unit_price`. -/
def medianWardPrices (db : List Transaction) (currentYear : Int) (ward : String)
    (age_bracket area_bracket : String) : List Int :=
  medianStationPrices db currentYear ward none age_bracket area_bracket

/-- Embedding of `calc_median_unit_price` from `calc_market_price.py`
(`min_sample_count` defaults to 20 in the source). -/
def calc_median_unit_price (db : List Transaction) (currentYear : Int)
    (ward_name : String) (station_name : Option String)
    (age_bracket area_bracket : String) (min_sample_count : Int) :
    Except String (Option Int × Nat × Bool) :=
  let pricesS := medianStationPrices db currentYear ward_name station_name age_bracket area_bracket
  if pyTruthyStr station_name && decide (min_sample_count ≤ (pricesS.length : Int)) then
    (safeMedianInt pricesS).map (fun m => (some m, pricesS.length, false))
  else
    let pricesW := medianWardPrices db currentYear ward_name age_bracket area_bracket
    if decide (min_sample_count ≤ (pricesW.length : Int)) then
      (safeMedianInt pricesW).map (fun m => (some m, pricesW.length, true))
    else
      Except.ok (none, pricesW.length, true)

/-- A rule `{min, max, factor}` of a numeric-range adjustment dimension. -/
structure RangeRule where
  min : Rat
  max : Rat
  factor : Rat
  deriving Repr, DecidableEq

/-- A rule `{value, factor}` of the categorical `direction` dimension. -/
structure StrRule where
  value : String
  factor : Rat
  deriving Repr, DecidableEq

/-- A rule `{value, factor}` of a boolean adjustment dimension. -/
structure BoolRule where
  value : Bool
  factor : Rat
  deriving Repr, DecidableEq

/-- The adjustment configuration of `calc_deal_score.py`; each field is the
rule list `adjustments.get(key, [])` for one of the nine dimensions. -/
structure Adjustments where
  walk_minutes : List RangeRule
  floor : List RangeRule
  direction : List StrRule
  area : List RangeRule
  total_units : List RangeRule
  total_floors : List RangeRule
  pet_allowed : List BoolRule
  good_view : List BoolRule
  good_sunlight : List BoolRule
  deriving Repr, DecidableEq

/-- Embedding of `load_adjustments` when `adjustments.yml` is absent: every dimension's
rule list is empty (`{"walk_minutes": [], "floor": [], "direction": [],
"area": []}` plus `.get(key, [])` for the remaining keys). -/
def emptyAdjustments : Adjustments :=
  ⟨[], [], [], [], [], [], [], [], []⟩

/-- The rule-scan loop shared by the numeric-range factor getters:
first rule with `entry["min"] <= v <= entry["max"]` wins, else `1.0`. -/
def rangeLookup (v : Rat) : List RangeRule → Rat
  | [] => 1
  | r :: rest => if r.min ≤ v && v ≤ r.max then r.factor else rangeLookup v rest

/-- The rule-scan loop of `get_direction_factor`: first rule with
`entry["value"] == direction` wins, else `1.0`. -/
def strLookup (v : String) : List StrRule → Rat
  | [] => 1
  | r :: rest => if r.value == v then r.factor else strLookup v rest

/-- The rule-scan loop of `get_boolean_factor`: first rule with
`entry["value"] == value` wins, else `1.0`. -/
def boolLookup (v : Bool) : List BoolRule → Rat
  | [] => 1
  | r :: rest => if r.value == v then r.factor else boolLookup v rest

/-- Embedding of `get_walk_factor` from `calc_deal_score.py`. -/
def get_walk_factor (minutes : Option Int) (adj : Adjustments) : Rat :=
  match minutes with
  | none => 1
  | some m => rangeLookup (m : Rat) adj.walk_minutes

/-- Embedding of `get_floor_factor` from `calc_deal_score.py`. -/
def get_floor_factor (floor : Option Int) (adj : Adjustments) : Rat :=
  match floor with
  | none => 1
  | some f => rangeLookup (f : Rat) adj.floor

/-- Embedding of `get_direction_factor` from `calc_deal_score.py`. -/
def get_direction_factor (direction : Option String) (adj : Adjustments) : Rat :=
  match direction with
  | none => 1
  | some d => strLookup d adj.direction

/-- Embedding of `get_area_factor` from `calc_deal_score.py`. -/
def get_area_factor (area : Option Rat) (adj : Adjustments) : Rat :=
  match area with
  | none => 1
  | some a => rangeLookup a adj.area

/-- Embedding of `get_total_units_factor` from `calc_deal_score.py`. -/
def get_total_units_factor (total_units : Option Int) (adj : Adjustments) : Rat :=
  match total_units with
  | none => 1
  | some u => rangeLookup (u : Rat) adj.total_units

/-- Embedding of `get_total_floors_factor` from `calc_deal_score.py`. -/
def get_total_floors_factor (total_floors : Option Int) (adj : Adjustments) : Rat :=
  match total_floors with
  | none => 1
  | some f => rangeLookup (f : Rat) adj.total_floors

/-- Embedding of `get_boolean_factor` from `calc_deal_score.py`; the rule list is the
`adjustments.get(key, [])` for the given boolean dimension. -/
def get_boolean_factor (value : Option Bool) (rules : List BoolRule) : Rat :=
  match value with
  | none => 1
  | some b => boolLookup b rules

/-- Embedding of `calc_deal_score` from `calc_deal_score.py`. -/
def calc_deal_score (asking_price : Int) (adjusted_market_price : Int) : Rat :=
  if adjusted_market_price ≤ 0 then 0
  else (((adjusted_market_price : Rat) - (asking_price : Rat)) / (adjusted_market_price : Rat)) * 100

/-- Round-half-to-even to an integer (the rounding of Python's `round`). -/
def roundHalfEven (q : Rat) : Int :=
  if q - (⌊q⌋ : Rat) < 1/2 then ⌊q⌋
  else if q - (⌊q⌋ : Rat) > 1/2 then ⌊q⌋ + 1
  else if ⌊q⌋ % 2 = 0 then ⌊q⌋ else ⌊q⌋ + 1

/-- Python `round(q, 2)`: round to two decimal places, half to even. -/
def pyRound2 (q : Rat) : Rat :=
  ((roundHalfEven (q * 100) : Int) : Rat) / 100

/-- A row of the `listings` table.  The boolean amenity flags are stored as
SQLite integers (`row[11..13]`), the derived valuation fields start out
`NULL`. -/
structure Listing where
  id : Int
  ward_name : String
  station_name : Option String
  asking_price : Option Int
  area : Option Rat
  building_year : Option Int
  minutes_to_station : Option Int
  floor : Option Int
  direction : Option String
  total_units : Option Int
  total_floors : Option Int
  pet_allowed : Option Int
  good_view : Option Int
  good_sunlight : Option Int
  status : String
  market_price : Option Int := none
  adjusted_market_price : Option Int := none
  walk_factor : Option Rat := none
  floor_factor : Option Rat := none
  direction_factor : Option Rat := none
  area_factor : Option Rat := none
  total_units_factor : Option Rat := none
  total_floors_factor : Option Rat := none
  pet_factor : Option Rat := none
  view_factor : Option Rat := none
  sunlight_factor : Option Rat := none
  fallback_level : Option Nat := none
  deal_score : Option Rat := none
  deriving Repr, DecidableEq

/-- Embedding of `bool(row[i]) if row[i] is not None else None` for an amenity column. -/
def intToBoolOpt : Option Int → Option Bool
  | none => none
  | some n => some (n != 0)

/-- The required-data check of `update_listing_scores`:
`not asking_price or not area or not building_year`. -/
def requiredMissing (l : Listing) : Bool :=
  pyFalsyInt l.asking_price || pyFalsyRat l.area || pyFalsyInt l.building_year

/-- What happened to one row in the `update_listing_scores` loop. -/
inductive RowOutcome where
  | updated
  | skipped
  | inactive
  deriving Repr, DecidableEq

/-- The `UPDATE listings SET ...` statement: overwrite all thirteen derived
fields of a listing, leaving the raw attributes untouched. -/
def applyScore (l : Listing) (mp amp : Int)
    (wf ff df af uf tf pf vf sf : Rat) (lvl : Nat) (sc : Rat) : Listing :=
  { l with
    market_price := some mp
    adjusted_market_price := some amp
    walk_factor := some wf
    floor_factor := some ff
    direction_factor := some df
    area_factor := some af
    total_units_factor := some uf
    total_floors_factor := some tf
    pet_factor := some pf
    view_factor := some vf
    sunlight_factor := some sf
    fallback_level := some lvl
    deal_score := some sc }

/-- The body of the `update_listing_scores` loop for a single listing row
(with the `WHERE status = 'active'` filter made explicit: non-active rows
are never fetched, hence untouched).  `Except.error` models an uncaught
Python exception aborting the batch. -/
def processOne (db : List Transaction) (adj : Adjustments) (currentYear : Int)
    (l : Listing) : Except String (Listing × RowOutcome) :=
  if l.status ≠ "active" then Except.ok (l, RowOutcome.inactive)
  else if requiredMissing l then Except.ok (l, RowOutcome.skipped)
  else
    match calc_market_price_with_fallback db currentYear l.ward_name l.station_name
        l.building_year l.area with
    | Except.error e => Except.error e
    | Except.ok (market_price, _sample_count, fallback_level) =>
      if pyFalsyInt market_price || fallback_level == 5 then
        Except.ok (l, RowOutcome.skipped)
      else
        let mp := market_price.getD 0
        let wf := get_walk_factor l.minutes_to_station adj
        let ff := get_floor_factor l.floor adj
        let df := get_direction_factor l.direction adj
        let af := get_area_factor l.area adj
        let uf := get_total_units_factor l.total_units adj
        let tf := get_total_floors_factor l.total_floors adj
        let pf := get_boolean_factor (intToBoolOpt l.pet_allowed) adj.pet_allowed
        let vf := get_boolean_factor (intToBoolOpt l.good_view) adj.good_view
        let sf := get_boolean_factor (intToBoolOpt l.good_sunlight) adj.good_sunlight
        let amp := pyInt ((mp : Rat) * wf * ff * df * af * uf * tf * pf * vf * sf)
        let score := calc_deal_score (l.asking_price.getD 0) amp
        Except.ok (applyScore l mp amp wf ff df af uf tf pf vf sf fallback_level
          (pyRound2 score), RowOutcome.updated)

/-- Embedding of `update_listing_scores` from `calc_deal_score.py`: fold the loop body over
the listing rows, counting `(updated, skipped, errors)`; the `errors` counter
is never incremented in the source. -/
def update_listing_scores (db : List Transaction) (adj : Adjustments)
    (currentYear : Int) : List Listing → Except String (List Listing × Nat × Nat × Nat)
  | [] => Except.ok ([], 0, 0, 0)
  | l :: rest =>
    match processOne db adj currentYear l with
    | Except.error e => Except.error e
    | Except.ok (l', o) =>
      match update_listing_scores db adj currentYear rest with
      | Except.error e => Except.error e
      | Except.ok (rest', u, s, e) =>
        Except.ok (l' :: rest',
          (if o == RowOutcome.updated then u + 1 else u),
          (if o == RowOutcome.skipped then s + 1 else s),
          e)

/-- The row filter of `get_listings_by_score`:
`status = 'active' AND deal_score IS NOT NULL`. -/
def scoreRowFilter (l : Listing) : Bool :=
  l.status == "active" && l.deal_score.isSome

/-- The possible results of `get_listings_by_score`'s SQL
(`ORDER BY deal_score DESC LIMIT ?`): SQL semantics constrains the output to
the first `limit` rows of SOME permutation of the filtered rows that is
non-increasing in `deal_score`; the relative order of rows with equal
`deal_score` is left unspecified (there is no secondary sort key). -/
def get_listings_by_score_ok (ls : List Listing) (limit : Nat) (out : List Listing) : Prop :=
  ∃ perm : List Listing,
    List.Perm perm (ls.filter scoreRowFilter) ∧
    perm.Pairwise (fun x y => y.deal_score.getD 0 ≤ x.deal_score.getD 0) ∧
    out = perm.take limit

/-! Section: Spec-side formulation of the fallback resolver (for refinement) -/

/-- Modelled from the spec (§4.3): which tiers a listing can use — station
tiers (1, 2) need a station name, area-bracket tiers (1, 3) need a defined
area bracket; tier 4 is always applicable. -/
def tierApplicable (station : Option String) (areaBracket : Option String) : Nat → Bool
  | 1 => pyTruthyStr station && areaBracket.isSome
  | 2 => pyTruthyStr station
  | 3 => areaBracket.isSome
  | _ => true

/-- Modelled from the spec (§4.3): per-tier minimum sample counts. -/
def tierThreshold : Nat → Nat
  | 1 => 20
  | 2 => 15
  | 3 => 10
  | _ => 5

/-- The comparable-transaction group each tier queries. -/
def tierPrices (db : List Transaction) (currentYear : Int) (ward : String)
    (station : Option String) (buildingYear : Int) (a : Rat) (t : Nat) : List Int :=
  let ab := (get_age_bracket currentYear (some buildingYear)).getD "31+"
  let yr := get_age_range currentYear ab
  let ar : Option Rat × Option Rat :=
    match get_area_bracket (some a) with
    | some arb => (some (get_area_range arb).1, some (get_area_range arb).2)
    | none => (none, none)
  match t with
  | 1 => query_unit_prices db ward station yr.1 yr.2 ar.1 ar.2
  | 2 => query_unit_prices db ward station yr.1 yr.2 none none
  | 3 => query_unit_prices db ward none yr.1 yr.2 ar.1 ar.2
  | _ => query_unit_prices db ward none yr.1 yr.2 none none

/-- Modelled from the spec (§4.3): a tier qualifies when it is applicable and
its comparable group meets the tier's minimum sample count. -/
def tierQualifies (db : List Transaction) (currentYear : Int) (ward : String)
    (station : Option String) (buildingYear : Int) (a : Rat) (t : Nat) : Bool :=
  tierApplicable station (get_area_bracket (some a)) t &&
  decide (tierThreshold t ≤ (tierPrices db currentYear ward station buildingYear a t).length)

/-- The result returned when tier `t` wins: integer median unit price of the
tier's group, times the floor area, truncated to an integer. -/
def tierResult (db : List Transaction) (currentYear : Int) (ward : String)
    (station : Option String) (buildingYear : Int) (a : Rat) (t : Nat) :
    Option Int × Nat × Nat :=
  (some (pyInt (((pyInt (pyMedian (tierPrices db currentYear ward station buildingYear a t)) : Int) : Rat) * a)),
   (tierPrices db currentYear ward station buildingYear a t).length, t)

/-- Modelled from the spec (§4.3): walk the ordered tier list, stopping at the
first qualifying tier; when no tier qualifies the result is an absent price
with tier 5 (and the tier-4 sample count). -/
def tierWalk (db : List Transaction) (currentYear : Int) (ward : String)
    (station : Option String) (buildingYear : Int) (a : Rat) :
    List Nat → Option Int × Nat × Nat
  | [] => (none, (tierPrices db currentYear ward station buildingYear a 4).length, 5)
  | t :: rest =>
    if tierQualifies db currentYear ward station buildingYear a t then
      tierResult db currentYear ward station buildingYear a t
    else tierWalk db currentYear ward station buildingYear a rest

/-- Modelled from the spec (§4.3): the full resolver — tiers 1,2,3,4 strictly
in order. -/
def resolveTiers (db : List Transaction) (currentYear : Int) (ward : String)
    (station : Option String) (buildingYear : Int) (a : Rat) :
    Option Int × Nat × Nat :=
  tierWalk db currentYear ward station buildingYear a [1, 2, 3, 4]

/-! Section: Spec-side formulation of the per-dimension lookups (for refinement) -/

/-- Modelled from the spec (§4.4): factor of the first rule whose inclusive
`[min, max]` range contains `v`; `1.0` when no rule matches. -/
def specRangeFactor (v : Rat) (rules : List RangeRule) : Rat :=
  match rules.find? (fun r => decide (r.min ≤ v) && decide (v ≤ r.max)) with
  | some r => r.factor
  | none => 1

/-- Modelled from the spec (§4.4): factor of the first rule whose value
matches exactly; `1.0` when no rule matches. -/
def specStrFactor (v : String) (rules : List StrRule) : Rat :=
  match rules.find? (fun r => r.value == v) with
  | some r => r.factor
  | none => 1

/-- Modelled from the spec (§4.4): boolean variant of the exact-value lookup. -/
def specBoolFactor (v : Bool) (rules : List BoolRule) : Rat :=
  match rules.find? (fun r => r.value == v) with
  | some r => r.factor
  | none => 1

/-! Section: Abbreviations for the updated branch of the batch loop -/

/-- The adjusted market price computed in `update_listing_scores`:
`int(market_price * walk * floor * direction * area * units * floors * pet
* view * sunlight)`. -/
def combinedAmp (adj : Adjustments) (l : Listing) (mp : Int) : Int :=
  pyInt ((mp : Rat) * get_walk_factor l.minutes_to_station adj * get_floor_factor l.floor adj *
    get_direction_factor l.direction adj * get_area_factor l.area adj *
    get_total_units_factor l.total_units adj * get_total_floors_factor l.total_floors adj *
    get_boolean_factor (intToBoolOpt l.pet_allowed) adj.pet_allowed *
    get_boolean_factor (intToBoolOpt l.good_view) adj.good_view *
    get_boolean_factor (intToBoolOpt l.good_sunlight) adj.good_sunlight)

/-- The full derived-field set written for a successfully scored listing. -/
def applyScoreOf (adj : Adjustments) (l : Listing) (mp : Int) (lvl : Nat) : Listing :=
  applyScore l mp (combinedAmp adj l mp)
    (get_walk_factor l.minutes_to_station adj) (get_floor_factor l.floor adj)
    (get_direction_factor l.direction adj) (get_area_factor l.area adj)
    (get_total_units_factor l.total_units adj) (get_total_floors_factor l.total_floors adj)
    (get_boolean_factor (intToBoolOpt l.pet_allowed) adj.pet_allowed)
    (get_boolean_factor (intToBoolOpt l.good_view) adj.good_view)
    (get_boolean_factor (intToBoolOpt l.good_sunlight) adj.good_sunlight)
    lvl (pyRound2 (calc_deal_score (l.asking_price.getD 0) (combinedAmp adj l mp)))

/-! Section: Concrete demonstration data -/

/-- A comparable sale in ward `"W"`, no station, built 2020, 45 m², unit
price 100. -/
def demoTx : Transaction := ⟨"W", none, some 2020, some 45, some 100⟩

/-- Five identical ward-level comparables: enough for tier 4 (min 5) only. -/
def demoDb4 : List Transaction := [demoTx, demoTx, demoTx, demoTx, demoTx]

/-- A single comparable: below every sample-size threshold. -/
def demoDb1 : List Transaction := [demoTx]

/-- An active listing in ward `"W"`, no station, asking 4000, 45 m², built
2020, no optional attributes. -/
def demoListing : Listing :=
  { id := 1, ward_name := "W", station_name := none, asking_price := some 4000,
    area := some 45, building_year := some 2020, minutes_to_station := none,
    floor := none, direction := none, total_units := none, total_floors := none,
    pet_allowed := none, good_view := none, good_sunlight := none, status := "active" }

/-- The row `demoListing` after one scoring pass against `demoDb4` with the empty
adjustment configuration (market price 4500, tier 4). -/
def demoScored : Listing := applyScoreOf emptyAdjustments demoListing 4500 4

/-- An active scored listing with id 1 and deal score 5. -/
def rankedA : Listing := { demoListing with id := 1, deal_score := some 5 }

/-- An active scored listing with id 2 and the same deal score 5. -/
def rankedB : Listing := { demoListing with id := 2, deal_score := some 5 }

/-- The row `demoListing` with an asking price of exactly 0. -/
def zeroAskListing : Listing := { demoListing with asking_price := some 0 }

instance exceptDecEq {e a : Type} [DecidableEq e] [DecidableEq a] :
    DecidableEq (Except e a) := fun x y =>
  match x, y with
  | Except.error u, Except.error v =>
    if h : u = v then isTrue (by rw [h]) else isFalse (fun hc => h (by cases hc; rfl))
  | Except.error _, Except.ok _ => isFalse (fun hc => Except.noConfusion hc)
  | Except.ok _, Except.error _ => isFalse (fun hc => Except.noConfusion hc)
  | Except.ok u, Except.ok v =>
    if h : u = v then isTrue (by rw [h]) else isFalse (fun hc => h (by cases hc; rfl))

/-! Section: Helper lemmas -/

theorem get_age_bracket_isSome (cy y : Int) :
    ∃ ab, get_age_bracket cy (some y) = some ab := by
  simp only [get_age_bracket]
  split_ifs <;> exact ⟨_, rfl⟩

theorem pyInt_intCast (n : Int) : pyInt ((n : Int) : Rat) = n := by
  unfold pyInt
  split_ifs with h
  · rw [← Int.cast_neg, Int.floor_intCast]; omega
  · exact Int.floor_intCast n

theorem rangeLookup_eq_spec (v : Rat) (rules : List RangeRule) :
    rangeLookup v rules = specRangeFactor v rules := by
  induction rules with
  | nil => rfl
  | cons r rest ih =>
    by_cases h : (decide (r.min ≤ v) && decide (v ≤ r.max)) = true
    · simp [rangeLookup, specRangeFactor, List.find?_cons, h]
    · simp only [Bool.not_eq_true] at h
      simp only [rangeLookup, specRangeFactor, List.find?_cons, h, Bool.false_eq_true,
        if_false]
      exact ih

theorem strLookup_eq_spec (v : String) (rules : List StrRule) :
    strLookup v rules = specStrFactor v rules := by
  induction rules with
  | nil => rfl
  | cons r rest ih =>
    by_cases h : (r.value == v) = true
    · simp [strLookup, specStrFactor, List.find?_cons, h]
    · simp only [Bool.not_eq_true] at h
      simp only [strLookup, specStrFactor, List.find?_cons, h, Bool.false_eq_true,
        if_false]
      exact ih

theorem boolLookup_eq_spec (v : Bool) (rules : List BoolRule) :
    boolLookup v rules = specBoolFactor v rules := by
  induction rules with
  | nil => rfl
  | cons r rest ih =>
    by_cases h : (r.value == v) = true
    · simp [boolLookup, specBoolFactor, List.find?_cons, h]
    · simp only [Bool.not_eq_true] at h
      simp only [boolLookup, specBoolFactor, List.find?_cons, h, Bool.false_eq_true,
        if_false]
      exact ih

theorem processOne_inactive (db : List Transaction) (adj : Adjustments) (cy : Int)
    (l : Listing) (h : l.status ≠ "active") :
    processOne db adj cy l = Except.ok (l, RowOutcome.inactive) := by
  simp [processOne, h]

theorem processOne_missingReq (db : List Transaction) (adj : Adjustments) (cy : Int)
    (l : Listing) (h1 : l.status = "active") (h2 : requiredMissing l = true) :
    processOne db adj cy l = Except.ok (l, RowOutcome.skipped) := by
  simp [processOne, h1, h2]

theorem processOne_calcFail (db : List Transaction) (adj : Adjustments) (cy : Int)
    (l : Listing) (e : String) (h1 : l.status = "active") (h2 : requiredMissing l = false)
    (h3 : calc_market_price_with_fallback db cy l.ward_name l.station_name
      l.building_year l.area = Except.error e) :
    processOne db adj cy l = Except.error e := by
  simp [processOne, h1, h2, h3]

theorem processOne_noPrice (db : List Transaction) (adj : Adjustments) (cy : Int)
    (l : Listing) (mpo : Option Int) (n lvl : Nat)
    (h1 : l.status = "active") (h2 : requiredMissing l = false)
    (h3 : calc_market_price_with_fallback db cy l.ward_name l.station_name
      l.building_year l.area = Except.ok (mpo, n, lvl))
    (h4 : (pyFalsyInt mpo || lvl == 5) = true) :
    processOne db adj cy l = Except.ok (l, RowOutcome.skipped) := by
  simp [processOne, h1, h2, h3, h4]

theorem processOne_scored (db : List Transaction) (adj : Adjustments) (cy : Int)
    (l : Listing) (mp : Int) (n lvl : Nat)
    (h1 : l.status = "active") (h2 : requiredMissing l = false)
    (h3 : calc_market_price_with_fallback db cy l.ward_name l.station_name
      l.building_year l.area = Except.ok (some mp, n, lvl))
    (h4 : mp ≠ 0) (h5 : lvl ≠ 5) :
    processOne db adj cy l = Except.ok (applyScoreOf adj l mp lvl, RowOutcome.updated) := by
  have hf : (pyFalsyInt (some mp) || lvl == 5) = false := by
    simp [pyFalsyInt, h4, h5]
  simp [processOne, h1, h2, h3, hf, applyScoreOf, combinedAmp, applyScore]

theorem processOne_updated_inv (db : List Transaction) (adj : Adjustments) (cy : Int)
    (l l' : Listing)
    (h : processOne db adj cy l = Except.ok (l', RowOutcome.updated)) :
    ∃ mp n lvl, l.status = "active" ∧ requiredMissing l = false ∧
      calc_market_price_with_fallback db cy l.ward_name l.station_name
        l.building_year l.area = Except.ok (some mp, n, lvl) ∧
      mp ≠ 0 ∧ lvl ≠ 5 ∧ l' = applyScoreOf adj l mp lvl := by
  by_cases h1 : l.status = "active"
  · by_cases h2 : requiredMissing l = true
    · rw [processOne_missingReq db adj cy l h1 h2] at h
      simp at h
    · have h2' : requiredMissing l = false := by
        simpa using h2
      rcases h3 : calc_market_price_with_fallback db cy l.ward_name l.station_name
          l.building_year l.area with e | ⟨mpo, n, lvl⟩
      · rw [processOne_calcFail db adj cy l e h1 h2' h3] at h
        simp at h
      · by_cases h4 : (pyFalsyInt mpo || lvl == 5) = true
        · rw [processOne_noPrice db adj cy l mpo n lvl h1 h2' h3 h4] at h
          simp at h
        · have h4' : pyFalsyInt mpo = false ∧ (lvl == 5) = false := by
            simpa using h4
          cases mpo with
          | none => simp [pyFalsyInt] at h4'
          | some mp =>
            have hmp : mp ≠ 0 := by
              have := h4'.1
              simpa [pyFalsyInt] using this
            have hlvl : lvl ≠ 5 := by
              have := h4'.2
              simpa using this
            rw [processOne_scored db adj cy l mp n lvl h1 h2' h3 hmp hlvl] at h
            obtain ⟨rfl, -⟩ : applyScoreOf adj l mp lvl = l' ∧ RowOutcome.updated = RowOutcome.updated := by
              simpa using h
            exact ⟨mp, n, lvl, h1, h2', rfl, hmp, hlvl, rfl⟩
  · rw [processOne_inactive db adj cy l h1] at h
    simp at h

theorem applyScoreOf_idem (adj : Adjustments) (l : Listing) (mp : Int) (lvl : Nat) :
    applyScoreOf adj (applyScoreOf adj l mp lvl) mp lvl = applyScoreOf adj l mp lvl := rfl

theorem processOne_rerun (db : List Transaction) (adj : Adjustments) (cy : Int)
    (l l' : Listing) (o : RowOutcome)
    (h : processOne db adj cy l = Except.ok (l', o)) :
    processOne db adj cy l' = Except.ok (l', o) := by
  by_cases h1 : l.status = "active"
  · by_cases h2 : requiredMissing l = true
    · rw [processOne_missingReq db adj cy l h1 h2] at h
      obtain ⟨rfl, rfl⟩ : l = l' ∧ RowOutcome.skipped = o := by simpa using h
      exact processOne_missingReq db adj cy l h1 h2
    · have h2' : requiredMissing l = false := by simpa using h2
      rcases h3 : calc_market_price_with_fallback db cy l.ward_name l.station_name
          l.building_year l.area with e | ⟨mpo, n, lvl⟩
      · rw [processOne_calcFail db adj cy l e h1 h2' h3] at h
        simp at h
      · by_cases h4 : (pyFalsyInt mpo || lvl == 5) = true
        · rw [processOne_noPrice db adj cy l mpo n lvl h1 h2' h3 h4] at h
          obtain ⟨rfl, rfl⟩ : l = l' ∧ RowOutcome.skipped = o := by simpa using h
          exact processOne_noPrice db adj cy l mpo n lvl h1 h2' h3 h4
        · have h4' : pyFalsyInt mpo = false ∧ (lvl == 5) = false := by simpa using h4
          cases mpo with
          | none => simp [pyFalsyInt] at h4'
          | some mp =>
            have hmp : mp ≠ 0 := by simpa [pyFalsyInt] using h4'.1
            have hlvl : lvl ≠ 5 := by simpa using h4'.2
            rw [processOne_scored db adj cy l mp n lvl h1 h2' h3 hmp hlvl] at h
            obtain ⟨rfl, rfl⟩ : applyScoreOf adj l mp lvl = l' ∧ RowOutcome.updated = o := by
              simpa using h
            have := processOne_scored db adj cy (applyScoreOf adj l mp lvl) mp n lvl h1 h2' h3 hmp hlvl
            rwa [applyScoreOf_idem] at this
  · rw [processOne_inactive db adj cy l h1] at h
    obtain ⟨rfl, rfl⟩ : l = l' ∧ RowOutcome.inactive = o := by simpa using h
    exact processOne_inactive db adj cy l h1

theorem pyFalsyInt_eq_false (o : Option Int) (h : pyFalsyInt o = false) :
    ∃ p, o = some p ∧ p ≠ 0 := by
  cases o with
  | none => simp [pyFalsyInt] at h
  | some p => exact ⟨p, rfl, by simpa [pyFalsyInt] using h⟩

theorem pyFalsyRat_eq_false (o : Option Rat) (h : pyFalsyRat o = false) :
    ∃ a, o = some a ∧ a ≠ 0 := by
  cases o with
  | none => simp [pyFalsyRat] at h
  | some a => exact ⟨a, rfl, by simpa [pyFalsyRat] using h⟩

theorem requiredMissing_false (l : Listing) (h : requiredMissing l = false) :
    pyFalsyInt l.asking_price = false ∧ pyFalsyRat l.area = false ∧
    pyFalsyInt l.building_year = false := by
  have h' := h
  simp only [requiredMissing, Bool.or_eq_false_iff] at h'
  exact ⟨h'.1.1, h'.1.2, h'.2⟩

theorem get_walk_factor_empty (m : Option Int) : get_walk_factor m emptyAdjustments = 1 := by
  cases m <;> rfl

theorem get_floor_factor_empty (f : Option Int) : get_floor_factor f emptyAdjustments = 1 := by
  cases f <;> rfl

theorem get_direction_factor_empty (d : Option String) :
    get_direction_factor d emptyAdjustments = 1 := by
  cases d <;> rfl

theorem get_area_factor_empty (a : Option Rat) : get_area_factor a emptyAdjustments = 1 := by
  cases a <;> rfl

theorem get_total_units_factor_empty (u : Option Int) :
    get_total_units_factor u emptyAdjustments = 1 := by
  cases u <;> rfl

theorem get_total_floors_factor_empty (t : Option Int) :
    get_total_floors_factor t emptyAdjustments = 1 := by
  cases t <;> rfl

theorem get_boolean_factor_nil (b : Option Bool) : get_boolean_factor b [] = 1 := by
  cases b <;> rfl

theorem combinedAmp_empty (l : Listing) (mp : Int) :
    combinedAmp emptyAdjustments l mp = mp := by
  rw [combinedAmp, get_walk_factor_empty, get_floor_factor_empty, get_direction_factor_empty,
    get_area_factor_empty, get_total_units_factor_empty, get_total_floors_factor_empty]
  show pyInt ((mp : Rat) * 1 * 1 * 1 * 1 * 1 * 1 *
    get_boolean_factor (intToBoolOpt l.pet_allowed) emptyAdjustments.pet_allowed *
    get_boolean_factor (intToBoolOpt l.good_view) emptyAdjustments.good_view *
    get_boolean_factor (intToBoolOpt l.good_sunlight) emptyAdjustments.good_sunlight) = mp
  rw [show emptyAdjustments.pet_allowed = [] from rfl,
    show emptyAdjustments.good_view = [] from rfl,
    show emptyAdjustments.good_sunlight = [] from rfl,
    get_boolean_factor_nil, get_boolean_factor_nil, get_boolean_factor_nil]
  simp only [mul_one]
  exact pyInt_intCast mp

section DemoFacts

attribute [local semireducible] Rat.mul Rat.inv Rat.add Rat.sub Rat.ofScientific

theorem demoRun : processOne demoDb4 emptyAdjustments 2026 demoListing =
    Except.ok (demoScored, RowOutcome.updated) := by decide

theorem demoBatch : update_listing_scores demoDb4 emptyAdjustments 2026 [demoListing] =
    Except.ok ([demoScored], 1, 0, 0) := by decide

end DemoFacts

/-! Section: Claim theorems -/

section Claims

attribute [local semireducible] Rat.mul Rat.inv Rat.add Rat.sub Rat.ofScientific

/-- C2: `calc_deal_score` returns `0` whenever the adjusted market price
is `≤ 0` (no division error), otherwise `(amp − asking) / amp × 100`; for
positive `amp` the score is positive / negative / zero according as the
asking price is below / above / equal to `amp`; and the deal score persisted
by the batch update is this value rounded to two decimal places (Python
`round(·, 2)`, half to even). -/
theorem deal_score_spec :
    ∀ a m : Int,
      (m ≤ 0 → calc_deal_score a m = 0) ∧
      (0 < m → calc_deal_score a m = (((m : Rat) - (a : Rat)) / (m : Rat)) * 100) ∧
      (0 < m → a < m → 0 < calc_deal_score a m) ∧
      (0 < m → m < a → calc_deal_score a m < 0) ∧
      (0 < m → a = m → calc_deal_score a m = 0) ∧
      (∀ (db : List Transaction) (adj : Adjustments) (cy : Int) (l l' : Listing),
        processOne db adj cy l = Except.ok (l', RowOutcome.updated) →
        ∃ p amp, l.asking_price = some p ∧ l'.adjusted_market_price = some amp ∧
          l'.deal_score = some (pyRound2 (calc_deal_score p amp))) := by
  intro a m
  have hform : 0 < m →
      calc_deal_score a m = (((m : Rat) - (a : Rat)) / (m : Rat)) * 100 := by
    intro h
    simp only [calc_deal_score]
    rw [if_neg (not_le.mpr h)]
  refine ⟨?_, hform, ?_, ?_, ?_, ?_⟩
  · intro h
    simp [calc_deal_score, h]
  · intro hm ha
    have hm' : (0 : Rat) < (m : Rat) := by exact_mod_cast hm
    have ha' : (a : Rat) < (m : Rat) := by exact_mod_cast ha
    rw [hform hm]
    exact mul_pos (div_pos (by linarith) hm') (by norm_num)
  · intro hm ha
    have hm' : (0 : Rat) < (m : Rat) := by exact_mod_cast hm
    have ha' : (m : Rat) < (a : Rat) := by exact_mod_cast ha
    rw [hform hm]
    exact mul_neg_of_neg_of_pos (div_neg_of_neg_of_pos (by linarith) hm') (by norm_num)
  · intro hm ha
    subst ha
    rw [hform hm]
    simp
  · intro db adj cy l l' h
    obtain ⟨mp, n, lvl, h1, h2, h3, hmp, hlvl, rfl⟩ := processOne_updated_inv db adj cy l l' h
    obtain ⟨p, hp, -⟩ := pyFalsyInt_eq_false l.asking_price (requiredMissing_false l h2).1
    refine ⟨p, combinedAmp adj l mp, hp, rfl, ?_⟩
    show some (pyRound2 (calc_deal_score (l.asking_price.getD 0) (combinedAmp adj l mp))) = _
    rw [hp]
    rfl

/-- C2 witness: instances of `deal_score_spec` at concrete inputs —
degenerate zero, the formula, the three sign cases, and the persisted
rounded score of the demonstration batch run. -/
theorem deal_score_spec_witness :
    calc_deal_score 50 (-5) = 0 ∧
    calc_deal_score 50 100 = (((100 : Int) : Rat) - ((50 : Int) : Rat)) / ((100 : Int) : Rat) * 100 ∧
    0 < calc_deal_score 50 100 ∧
    calc_deal_score 150 100 < 0 ∧
    calc_deal_score 100 100 = 0 ∧
    (∃ p amp, demoListing.asking_price = some p ∧
      demoScored.adjusted_market_price = some amp ∧
      demoScored.deal_score = some (pyRound2 (calc_deal_score p amp))) :=
  ⟨(deal_score_spec 50 (-5)).1 (by decide),
   (deal_score_spec 50 100).2.1 (by decide),
   (deal_score_spec 50 100).2.2.1 (by decide) (by decide),
   (deal_score_spec 150 100).2.2.2.1 (by decide) (by decide),
   (deal_score_spec 100 100).2.2.2.2.1 (by decide) rfl,
   (deal_score_spec 0 0).2.2.2.2.2 demoDb4 emptyAdjustments 2026 demoListing demoScored demoRun⟩

/-- C3 (claim vs code): a missing building year always yields
`(None, 0, 5)` without an exception, as claimed; but a missing floor area
does NOT always yield tier 5 — when a tier with enough samples qualifies,
the source computes `int(median * area)` with `area = None` and raises
`TypeError` (here: ward `"W"`, no station, built 2020, five ward-level
comparables qualify tier 4). -/
theorem missing_inputs_behavior :
    (∀ (db : List Transaction) (cy : Int) (ward : String) (st : Option String)
      (a : Option Rat),
      calc_market_price_with_fallback db cy ward st none a = Except.ok (none, 0, 5)) ∧
    calc_market_price_with_fallback demoDb4 2026 "W" none (some 2020) none =
      Except.error "TypeError" := by
  constructor
  · intro db cy ward st a
    rfl
  · decide

/-- C9: the required-data check of the batch update uses Python
truthiness, so an active listing whose asking price, floor area or building
year is exactly `0` is skipped and left untouched — for every transaction
store `db`, i.e. no comparable-sales query is consulted. -/
theorem zero_required_fields_skipped :
    ∀ (db : List Transaction) (adj : Adjustments) (cy : Int) (l : Listing),
      l.status = "active" →
      (l.asking_price = some 0 ∨ l.area = some 0 ∨ l.building_year = some 0) →
      processOne db adj cy l = Except.ok (l, RowOutcome.skipped) := by
  intro db adj cy l h1 h2
  apply processOne_missingReq db adj cy l h1
  rcases h2 with h | h | h <;>
    simp [requiredMissing, h, pyFalsyInt, pyFalsyRat]

/-- C9 witness: the demonstration listing with asking price `0` is
skipped unchanged. -/
theorem zero_required_fields_skipped_witness :
    processOne demoDb4 emptyAdjustments 2026 zeroAskListing =
      Except.ok (zeroAskListing, RowOutcome.skipped) :=
  zero_required_fields_skipped demoDb4 emptyAdjustments 2026 zeroAskListing rfl (Or.inl rfl)

/-- C10: in each boundary gap (50,51), (60,61), (70,71), (80,81) the
area bracket assigned by `get_area_bracket` is the next-higher bracket, whose
`get_area_range` interval excludes the listing's own floor area — so the
tier-1/tier-3 comparable query range can exclude the listing's area. -/
theorem area_bracket_gap :
    ∀ a : Rat,
      (50 < a → a < 51 → get_area_bracket (some a) = some "51-60" ∧
        get_area_range "51-60" = (51, 60) ∧ ¬(51 ≤ a ∧ a ≤ 60)) ∧
      (60 < a → a < 61 → get_area_bracket (some a) = some "61-70" ∧
        get_area_range "61-70" = (61, 70) ∧ ¬(61 ≤ a ∧ a ≤ 70)) ∧
      (70 < a → a < 71 → get_area_bracket (some a) = some "71-80" ∧
        get_area_range "71-80" = (71, 80) ∧ ¬(71 ≤ a ∧ a ≤ 80)) ∧
      (80 < a → a < 81 → get_area_bracket (some a) = some "81+" ∧
        get_area_range "81+" = (81, 999) ∧ ¬(81 ≤ a ∧ a ≤ 999)) := by
  intro a
  refine ⟨?_, ?_, ?_, ?_⟩ <;> intro h1 h2 <;>
    refine ⟨?_, rfl, fun hc => by linarith [hc.1, hc.2]⟩
  · simp only [get_area_bracket]
    rw [if_neg (by linarith), if_neg (by linarith), if_pos (by linarith)]
  · simp only [get_area_bracket]
    rw [if_neg (by linarith), if_neg (by linarith), if_neg (by linarith),
      if_pos (by linarith)]
  · simp only [get_area_bracket]
    rw [if_neg (by linarith), if_neg (by linarith), if_neg (by linarith),
      if_neg (by linarith), if_pos (by linarith)]
  · simp only [get_area_bracket]
    rw [if_neg (by linarith), if_neg (by linarith), if_neg (by linarith),
      if_neg (by linarith), if_neg (by linarith)]

/-- C10 witness: the gap property at the concrete areas 50.5, 60.5,
70.5, 80.5 m². -/
theorem area_bracket_gap_witness :
    (get_area_bracket (some (101/2 : Rat)) = some "51-60" ∧
      get_area_range "51-60" = (51, 60) ∧ ¬(51 ≤ (101/2 : Rat) ∧ (101/2 : Rat) ≤ 60)) ∧
    (get_area_bracket (some (121/2 : Rat)) = some "61-70" ∧
      get_area_range "61-70" = (61, 70) ∧ ¬(61 ≤ (121/2 : Rat) ∧ (121/2 : Rat) ≤ 70)) ∧
    (get_area_bracket (some (141/2 : Rat)) = some "71-80" ∧
      get_area_range "71-80" = (71, 80) ∧ ¬(71 ≤ (141/2 : Rat) ∧ (141/2 : Rat) ≤ 80)) ∧
    (get_area_bracket (some (161/2 : Rat)) = some "81+" ∧
      get_area_range "81+" = (81, 999) ∧ ¬(81 ≤ (161/2 : Rat) ∧ (161/2 : Rat) ≤ 999)) :=
  ⟨(area_bracket_gap (101/2)).1 (by norm_num) (by norm_num),
   (area_bracket_gap (121/2)).2.1 (by norm_num) (by norm_num),
   (area_bracket_gap (141/2)).2.2.1 (by norm_num) (by norm_num),
   (area_bracket_gap (161/2)).2.2.2 (by norm_num) (by norm_num)⟩

/-- C5: with the empty adjustment configuration (the default when the
configuration file is absent) every per-dimension multiplier is `1.0`, and
every listing scored by the batch update gets
`adjusted_market_price = market_price` and the deal score computed from the
raw market price. -/
theorem empty_config_neutral :
    (∀ m, get_walk_factor m emptyAdjustments = 1) ∧
    (∀ f, get_floor_factor f emptyAdjustments = 1) ∧
    (∀ d, get_direction_factor d emptyAdjustments = 1) ∧
    (∀ a, get_area_factor a emptyAdjustments = 1) ∧
    (∀ u, get_total_units_factor u emptyAdjustments = 1) ∧
    (∀ t, get_total_floors_factor t emptyAdjustments = 1) ∧
    (∀ b, get_boolean_factor b emptyAdjustments.pet_allowed = 1) ∧
    (∀ b, get_boolean_factor b emptyAdjustments.good_view = 1) ∧
    (∀ b, get_boolean_factor b emptyAdjustments.good_sunlight = 1) ∧
    (∀ (db : List Transaction) (cy : Int) (l l' : Listing),
      processOne db emptyAdjustments cy l = Except.ok (l', RowOutcome.updated) →
      ∃ p mp, l.asking_price = some p ∧ l'.market_price = some mp ∧
        l'.adjusted_market_price = some mp ∧
        l'.deal_score = some (pyRound2 (calc_deal_score p mp))) := by
  refine ⟨get_walk_factor_empty, get_floor_factor_empty, get_direction_factor_empty,
    get_area_factor_empty, get_total_units_factor_empty, get_total_floors_factor_empty,
    get_boolean_factor_nil, get_boolean_factor_nil, get_boolean_factor_nil, ?_⟩
  intro db cy l l' h
  obtain ⟨mp, n, lvl, h1, h2, h3, hmp, hlvl, rfl⟩ :=
    processOne_updated_inv db emptyAdjustments cy l l' h
  obtain ⟨p, hp, -⟩ := pyFalsyInt_eq_false l.asking_price (requiredMissing_false l h2).1
  refine ⟨p, mp, hp, rfl, ?_, ?_⟩
  · show some (combinedAmp emptyAdjustments l mp) = some mp
    rw [combinedAmp_empty]
  · show some (pyRound2 (calc_deal_score (l.asking_price.getD 0)
      (combinedAmp emptyAdjustments l mp))) = _
    rw [hp, combinedAmp_empty]
    rfl

/-- C5 witness: the demonstration run with the empty configuration —
adjusted price equals raw price and the score comes from the raw price. -/
theorem empty_config_neutral_witness :
    ∃ p mp, demoListing.asking_price = some p ∧ demoScored.market_price = some mp ∧
      demoScored.adjusted_market_price = some mp ∧
      demoScored.deal_score = some (pyRound2 (calc_deal_score p mp)) :=
  empty_config_neutral.2.2.2.2.2.2.2.2.2 demoDb4 2026 demoListing demoScored demoRun

/-- C4: each numeric-range dimension getter returns the factor of the
first configured rule whose inclusive `[min, max]` range contains the value
(`1.0` when the value is absent or no rule matches), the categorical and
boolean getters do the same with exact value match, the truncation of the
left-associated product of the raw market price with the nine factors equals
the truncation of the price times the product of all nine factors, and the
batch update persists exactly that adjusted price. -/
theorem adjustment_engine_spec :
    (∀ (adj : Adjustments) (v : Int),
      get_walk_factor (some v) adj = specRangeFactor (v : Rat) adj.walk_minutes) ∧
    (∀ adj : Adjustments, get_walk_factor none adj = 1) ∧
    (∀ (adj : Adjustments) (v : Int),
      get_floor_factor (some v) adj = specRangeFactor (v : Rat) adj.floor) ∧
    (∀ adj : Adjustments, get_floor_factor none adj = 1) ∧
    (∀ (adj : Adjustments) (a : Rat),
      get_area_factor (some a) adj = specRangeFactor a adj.area) ∧
    (∀ adj : Adjustments, get_area_factor none adj = 1) ∧
    (∀ (adj : Adjustments) (v : Int),
      get_total_units_factor (some v) adj = specRangeFactor (v : Rat) adj.total_units) ∧
    (∀ adj : Adjustments, get_total_units_factor none adj = 1) ∧
    (∀ (adj : Adjustments) (v : Int),
      get_total_floors_factor (some v) adj = specRangeFactor (v : Rat) adj.total_floors) ∧
    (∀ adj : Adjustments, get_total_floors_factor none adj = 1) ∧
    (∀ (adj : Adjustments) (d : String),
      get_direction_factor (some d) adj = specStrFactor d adj.direction) ∧
    (∀ adj : Adjustments, get_direction_factor none adj = 1) ∧
    (∀ (rules : List BoolRule) (b : Bool),
      get_boolean_factor (some b) rules = specBoolFactor b rules) ∧
    (∀ rules : List BoolRule, get_boolean_factor none rules = 1) ∧
    (∀ (mp : Int) (w f d a u t p v s : Rat),
      pyInt ((mp : Rat) * w * f * d * a * u * t * p * v * s) =
        pyInt ((mp : Rat) * (w * f * d * a * u * t * p * v * s))) ∧
    (∀ (db : List Transaction) (adj : Adjustments) (cy : Int) (l l' : Listing),
      processOne db adj cy l = Except.ok (l', RowOutcome.updated) →
      ∃ mp, l'.market_price = some mp ∧
        l'.adjusted_market_price = some (pyInt ((mp : Rat) *
          (get_walk_factor l.minutes_to_station adj * get_floor_factor l.floor adj *
           get_direction_factor l.direction adj * get_area_factor l.area adj *
           get_total_units_factor l.total_units adj * get_total_floors_factor l.total_floors adj *
           get_boolean_factor (intToBoolOpt l.pet_allowed) adj.pet_allowed *
           get_boolean_factor (intToBoolOpt l.good_view) adj.good_view *
           get_boolean_factor (intToBoolOpt l.good_sunlight) adj.good_sunlight)))) := by
  refine ⟨fun adj v => rangeLookup_eq_spec _ _, fun adj => rfl,
    fun adj v => rangeLookup_eq_spec _ _, fun adj => rfl,
    fun adj a => rangeLookup_eq_spec _ _, fun adj => rfl,
    fun adj v => rangeLookup_eq_spec _ _, fun adj => rfl,
    fun adj v => rangeLookup_eq_spec _ _, fun adj => rfl,
    fun adj d => strLookup_eq_spec _ _, fun adj => rfl,
    fun rules b => boolLookup_eq_spec _ _, fun rules => rfl,
    fun mp w f d a u t p v s => congrArg pyInt (by ring), ?_⟩
  intro db adj cy l l' h
  obtain ⟨mp, n, lvl, h1, h2, h3, hmp, hlvl, rfl⟩ := processOne_updated_inv db adj cy l l' h
  refine ⟨mp, rfl, ?_⟩
  show some (combinedAmp adj l mp) = _
  rw [combinedAmp]
  exact congrArg (fun q => some (pyInt q)) (by ring)

/-- C4 witness: the first-match lookup at a concrete configuration and
the persisted adjusted price of the demonstration run. -/
theorem adjustment_engine_spec_witness :
    get_walk_factor (some 5) emptyAdjustments =
      specRangeFactor ((5 : Int) : Rat) emptyAdjustments.walk_minutes ∧
    (∃ mp, demoScored.market_price = some mp ∧
      demoScored.adjusted_market_price = some (pyInt ((mp : Rat) *
        (get_walk_factor demoListing.minutes_to_station emptyAdjustments *
         get_floor_factor demoListing.floor emptyAdjustments *
         get_direction_factor demoListing.direction emptyAdjustments *
         get_area_factor demoListing.area emptyAdjustments *
         get_total_units_factor demoListing.total_units emptyAdjustments *
         get_total_floors_factor demoListing.total_floors emptyAdjustments *
         get_boolean_factor (intToBoolOpt demoListing.pet_allowed) emptyAdjustments.pet_allowed *
         get_boolean_factor (intToBoolOpt demoListing.good_view) emptyAdjustments.good_view *
         get_boolean_factor (intToBoolOpt demoListing.good_sunlight) emptyAdjustments.good_sunlight)))) :=
  ⟨adjustment_engine_spec.1 emptyAdjustments 5,
   adjustment_engine_spec.2.2.2.2.2.2.2.2.2.2.2.2.2.2.2 demoDb4 emptyAdjustments 2026
     demoListing demoScored demoRun⟩

/-- C6 counterexample: with one matching transaction and the default
minimum sample count 20, `calc_median_unit_price` returns an absent median
with sample count `1 ≠ 0` — the aggregator itself enforces a minimum sample
size, so "absent only when the sample count is zero" is false. -/
theorem median_absent_nonzero_count :
    calc_median_unit_price demoDb1 2026 "W" none "0-10" "40-50" 20 =
      Except.ok (none, 1, true) ∧ (1 : Nat) ≠ 0 :=
  ⟨by decide, by decide⟩

/-- C6 amended: `calc_median_unit_price` itself enforces its
`min_sample_count` parameter (default 20): a successful call returns the
truncated median and count of the station-level group when a station is
given and that group meets the threshold (fallback flag `false`), otherwise
of the ward-level group when it meets the threshold (flag `true`); the
median is absent exactly when the ward-level count is below the threshold —
in particular it can be absent with a nonzero sample count. -/
theorem calc_median_enforces_threshold :
    ∀ (db : List Transaction) (cy : Int) (ward : String) (st : Option String)
      (ab arb : String) (msc : Int) (m : Option Int) (n : Nat) (fb : Bool),
      calc_median_unit_price db cy ward st ab arb msc = Except.ok (m, n, fb) →
      (m = none → fb = true ∧ n = (medianWardPrices db cy ward ab arb).length ∧
        (n : Int) < msc) ∧
      (∀ x, m = some x → msc ≤ (n : Int) ∧
        ((fb = false ∧ pyTruthyStr st = true ∧
            n = (medianStationPrices db cy ward st ab arb).length ∧
            x = pyInt (pyMedian (medianStationPrices db cy ward st ab arb))) ∨
         (fb = true ∧ n = (medianWardPrices db cy ward ab arb).length ∧
            x = pyInt (pyMedian (medianWardPrices db cy ward ab arb))))) := by
  intro db cy ward st ab arb msc m n fb h
  simp only [calc_median_unit_price] at h
  by_cases hc1 : (pyTruthyStr st &&
      decide (msc ≤ ((medianStationPrices db cy ward st ab arb).length : Int))) = true
  · rw [if_pos hc1] at h
    obtain ⟨hst, hlen⟩ := Bool.and_eq_true_iff.mp hc1
    by_cases hS : (medianStationPrices db cy ward st ab arb).isEmpty = true
    · rw [safeMedianInt, if_pos hS] at h
      simp [Except.map] at h
    · rw [safeMedianInt, if_neg hS] at h
      simp only [Except.map] at h
      obtain ⟨hm, hn, hfb⟩ : some (pyInt (pyMedian (medianStationPrices db cy ward st ab arb))) = m ∧
          (medianStationPrices db cy ward st ab arb).length = n ∧ false = fb := by
        simpa using h
      subst hm; subst hn; subst hfb
      constructor
      · intro hcon; cases hcon
      · intro x hx
        obtain rfl : pyInt (pyMedian (medianStationPrices db cy ward st ab arb)) = x := by
          simpa using hx
        exact ⟨by exact_mod_cast of_decide_eq_true hlen, Or.inl ⟨rfl, hst, rfl, rfl⟩⟩
  · rw [if_neg hc1] at h
    by_cases hc2 : decide (msc ≤ ((medianWardPrices db cy ward ab arb).length : Int)) = true
    · rw [if_pos hc2] at h
      by_cases hW : (medianWardPrices db cy ward ab arb).isEmpty = true
      · rw [safeMedianInt, if_pos hW] at h
        simp [Except.map] at h
      · rw [safeMedianInt, if_neg hW] at h
        simp only [Except.map] at h
        obtain ⟨hm, hn, hfb⟩ : some (pyInt (pyMedian (medianWardPrices db cy ward ab arb))) = m ∧
            (medianWardPrices db cy ward ab arb).length = n ∧ true = fb := by
          simpa using h
        subst hm; subst hn; subst hfb
        constructor
        · intro hcon; cases hcon
        · intro x hx
          obtain rfl : pyInt (pyMedian (medianWardPrices db cy ward ab arb)) = x := by
            simpa using hx
          exact ⟨by exact_mod_cast of_decide_eq_true hc2, Or.inr ⟨rfl, rfl, rfl⟩⟩
    · rw [if_neg hc2] at h
      obtain ⟨hm, hn, hfb⟩ : (none : Option Int) = m ∧
          (medianWardPrices db cy ward ab arb).length = n ∧ true = fb := by
        simpa using h
      subst hm; subst hn; subst hfb
      refine ⟨fun _ => ⟨rfl, rfl, ?_⟩, fun x hx => by cases hx⟩
      have hb : decide (msc ≤ ((medianWardPrices db cy ward ab arb).length : Int)) = false :=
        Bool.eq_false_iff.mpr hc2
      exact not_le.mp (of_decide_eq_false hb)

/-- C6 amended witness: the threshold characterization applied to the
single-comparable store — the median is absent although the count is 1. -/
theorem calc_median_enforces_threshold_witness :
    true = true ∧ (1 : Nat) = (medianWardPrices demoDb1 2026 "W" "0-10" "40-50").length ∧
      ((1 : Nat) : Int) < 20 :=
  (calc_median_enforces_threshold demoDb1 2026 "W" none "0-10" "40-50" 20 none 1 true
    (by decide)).1 rfl

/-- C7 counterexample: two active listings with equal deal scores; both
orderings satisfy the ranking query's SQL contract
(`ORDER BY deal_score DESC LIMIT ?` with no secondary key), so the result is
not deterministic and ties are not guaranteed to be broken by id ascending. -/
theorem ranking_tie_not_deterministic :
    get_listings_by_score_ok [rankedA, rankedB] 2 [rankedA, rankedB] ∧
    get_listings_by_score_ok [rankedA, rankedB] 2 [rankedB, rankedA] ∧
    ([rankedA, rankedB] : List Listing) ≠ [rankedB, rankedA] := by
  have hf : [rankedA, rankedB].filter scoreRowFilter = [rankedA, rankedB] := by decide
  have hpw : ∀ x y : Listing, x ∈ ([rankedA, rankedB] : List Listing) →
      y ∈ ([rankedA, rankedB] : List Listing) →
      y.deal_score.getD 0 ≤ x.deal_score.getD 0 := by
    intro x y hx hy
    fin_cases hx <;> fin_cases hy <;> decide
  refine ⟨⟨[rankedA, rankedB], by rw [hf], ?_, rfl⟩,
          ⟨[rankedB, rankedA], by rw [hf]; exact List.Perm.swap rankedA rankedB [], ?_, rfl⟩,
          by decide⟩
  · exact List.pairwise_iff_forall_sublist.mpr (by
      intro x y hsub
      exact hpw x y (hsub.subset (by simp)) (hsub.subset (by simp)))
  · refine List.Pairwise.cons ?_ (List.pairwise_singleton _ _)
    intro y hy
    obtain rfl : y = rankedA := by simpa using hy
    decide

/-- C7 amended: every list satisfying the ranking query's contract is
sorted by deal score descending, contains only active listings of the store
with a present deal score, and has length `min limit (number of qualifying
rows)`; the tie order is unconstrained (see the counterexample), not broken
by listing id. -/
theorem ranking_query_spec :
    ∀ (ls : List Listing) (limit : Nat) (out : List Listing),
      get_listings_by_score_ok ls limit out →
      out.Pairwise (fun x y => y.deal_score.getD 0 ≤ x.deal_score.getD 0) ∧
      (∀ l ∈ out, l.status = "active" ∧ l.deal_score.isSome = true ∧ l ∈ ls) ∧
      out.length = min limit (ls.filter scoreRowFilter).length := by
  intro ls limit out hok
  obtain ⟨perm, hperm, hsort, rfl⟩ := hok
  refine ⟨hsort.sublist (List.take_sublist limit perm), ?_, ?_⟩
  · intro l hl
    have hmem : l ∈ perm := (List.take_sublist limit perm).subset hl
    have hfil : l ∈ ls.filter scoreRowFilter := hperm.subset hmem
    have := List.mem_filter.mp hfil
    refine ⟨?_, ?_, this.1⟩
    · have hb := this.2
      simp only [scoreRowFilter, Bool.and_eq_true, beq_iff_eq] at hb
      exact hb.1
    · have hb := this.2
      simp only [scoreRowFilter, Bool.and_eq_true] at hb
      exact hb.2
  · rw [List.length_take, hperm.length_eq]

/-- C7 amended witness: the characterization applied to a single-listing
store. -/
theorem ranking_query_spec_witness :
    ([rankedA] : List Listing).Pairwise
      (fun x y => y.deal_score.getD 0 ≤ x.deal_score.getD 0) ∧
    (∀ l ∈ ([rankedA] : List Listing), l.status = "active" ∧ l.deal_score.isSome = true ∧
      l ∈ ([rankedA] : List Listing)) ∧
    ([rankedA] : List Listing).length = min 5 ([rankedA].filter scoreRowFilter).length :=
  ranking_query_spec [rankedA] 5 [rankedA]
    ⟨[rankedA], by decide, List.pairwise_singleton _ _, by decide⟩

/-- C8: re-running the batch update on its own output, with unchanged
transactions, adjustment configuration and current year, reproduces exactly
the same listing rows (all derived fields included) and the same
`(updated, skipped, errored)` counts; each run recomputes every active
listing from the raw attributes only. -/
theorem batch_rerun_idempotent :
    ∀ (db : List Transaction) (adj : Adjustments) (cy : Int)
      (ls ls' : List Listing) (u s e : Nat),
      update_listing_scores db adj cy ls = Except.ok (ls', u, s, e) →
      update_listing_scores db adj cy ls' = Except.ok (ls', u, s, e) := by
  intro db adj cy ls
  induction ls with
  | nil =>
    intro ls' u s e h
    rw [show update_listing_scores db adj cy [] =
      Except.ok (([], 0, 0, 0) : List Listing × Nat × Nat × Nat) from rfl] at h
    simp only [Except.ok.injEq, Prod.mk.injEq] at h
    obtain ⟨h1, h2, h3, h4⟩ := h
    subst h1; subst h2; subst h3; subst h4
    rfl
  | cons l rest ih =>
    intro ls' u s e h
    simp only [update_listing_scores] at h
    rcases hp : processOne db adj cy l with e0 | ⟨l1, o⟩
    · rw [hp] at h
      simp at h
    · rw [hp] at h
      rcases hr : update_listing_scores db adj cy rest with e1 | ⟨rest', u1, s1, e1⟩
      · rw [hr] at h
        simp at h
      · rw [hr] at h
        simp only [Except.ok.injEq, Prod.mk.injEq] at h
        obtain ⟨hl, hu, hs, he⟩ := h
        subst hl; subst hu; subst hs; subst he
        simp only [update_listing_scores]
        rw [processOne_rerun db adj cy l l1 o hp, ih rest' u1 s1 e1 hr]

/-- C1: for every listing with a building year (so an age bracket is
always assigned) and a present floor area, `calc_market_price_with_fallback`
equals the spec-side resolver that evaluates tiers 1–4 strictly in order
with thresholds 20/15/10/5, skipping station tiers (1, 2) without a truthy
station name and area-bracket tiers (1, 3) without a defined area bracket,
returning at the first qualifying tier the integer median unit price times
the floor area truncated to an integer, and an absent price with tier 5 when
no tier qualifies; moreover the returned tier is never later than any
qualifying tier, regardless of sample counts of later tiers. -/
theorem fallback_resolver_spec :
    ∀ (db : List Transaction) (cy : Int) (ward : String) (st : Option String)
      (y : Int) (a : Rat),
      (calc_market_price_with_fallback db cy ward st (some y) (some a) =
        Except.ok (resolveTiers db cy ward st y a)) ∧
      (∀ t ∈ [1, 2, 3, 4], tierQualifies db cy ward st y a t = true →
        (resolveTiers db cy ward st y a).2.2 ≤ t) := by
  intro db cy ward st y a
  constructor
  · obtain ⟨ab, hab⟩ := get_age_bracket_isSome cy y
    simp only [calc_market_price_with_fallback, hab, resolveTiers, tierWalk, tierQualifies,
      tierResult, tierPrices, tierApplicable, tierThreshold, Option.getD_some,
      Bool.true_and, tierPriceExpr, Except.map]
    split_ifs <;> rfl
  · intro t ht hq
    fin_cases ht
    · simp [resolveTiers, tierWalk, hq, tierResult]
    · by_cases q1 : tierQualifies db cy ward st y a 1 = true
      · simp [resolveTiers, tierWalk, q1, tierResult]
      · simp [resolveTiers, tierWalk, q1, hq, tierResult]
    · by_cases q1 : tierQualifies db cy ward st y a 1 = true
      · simp [resolveTiers, tierWalk, q1, tierResult]
      · by_cases q2 : tierQualifies db cy ward st y a 2 = true
        · simp [resolveTiers, tierWalk, q1, q2, tierResult]
        · simp [resolveTiers, tierWalk, q1, q2, hq, tierResult]
    · by_cases q1 : tierQualifies db cy ward st y a 1 = true
      · simp [resolveTiers, tierWalk, q1, tierResult]
      · by_cases q2 : tierQualifies db cy ward st y a 2 = true
        · simp [resolveTiers, tierWalk, q1, q2, tierResult]
        · by_cases q3 : tierQualifies db cy ward st y a 3 = true
          · simp [resolveTiers, tierWalk, q1, q2, q3, tierResult]
          · simp [resolveTiers, tierWalk, q1, q2, q3, hq, tierResult]

/-- C1 witness: the refinement and the earliest-tier bound at the
demonstration store, where tier 4 qualifies. -/
theorem fallback_resolver_spec_witness :
    calc_market_price_with_fallback demoDb4 2026 "W" none (some 2020) (some 45) =
      Except.ok (resolveTiers demoDb4 2026 "W" none 2020 45) ∧
    (resolveTiers demoDb4 2026 "W" none 2020 45).2.2 ≤ 4 :=
  ⟨(fallback_resolver_spec demoDb4 2026 "W" none 2020 45).1,
   (fallback_resolver_spec demoDb4 2026 "W" none 2020 45).2 4 (by decide) (by decide)⟩

/-- C8 witness: the demonstration batch output is a fixed point of the
batch update, with the same counts. -/
theorem batch_rerun_idempotent_witness :
    update_listing_scores demoDb4 emptyAdjustments 2026 [demoScored] =
      Except.ok ([demoScored], 1, 0, 0) :=
  batch_rerun_idempotent demoDb4 emptyAdjustments 2026 [demoListing] [demoScored] 1 0 0 demoBatch

end Claims

end AptDash
